import Mathlib

/-!
Verification of the crypto-trading backtest core.

This file gives a shallow embedding, in Lean 4, of the parts of the
backtesting platform that the specification's claims are about:

* the data model (`Candle`, `Order`, `Position`, `Trade`, `PortfolioState`)
  from `src/data/data_models.py` and `src/core/backtest_engine.py`;
* the order-execution simulator (`OrderExecutor`) from
  `src/core/backtest_engine.py`;
* the grid-trading strategy state machine (`GridTradingStrategy`) from
  `src/strategies/grid_strategy.py`;
* the volatility calculator from `src/volatility.py` and the adaptive
  parameter engine's volatility classification from
  `src/adaptive_parameters.py`;
* the metrics calculator from `src/backtest/metrics.py`;
* the per-candle backtest loop (`run_backtest`) from
  `src/core/backtest_engine.py`, specialised to a single trading symbol
  (the source iterates the same per-symbol block over a dict of symbols;
  all claims under study concern the per-symbol behaviour).

Python floats are modelled as rationals (`ℚ`); values produced by square
roots and logarithms live in `ℝ` (`Real.sqrt`, `Real.log`).  The float
value `float('inf')` used to initialise `current_min_price` is modelled
by `Option ℚ` with `none` standing for infinity.  Python reference
semantics matter in exactly one place — `portfolio_history` stores
references to the single mutated-in-place `PortfolioState` object — and
that is modelled explicitly (see `observed_portfolio_history`).
-/

/-- `TradeType` from `src/core/enums.py`. -/
inductive TradeType where
  | long
  | short
  | both
deriving DecidableEq, Repr

/-- `TradeType.value` (the string payload of the Python enum). -/
def TradeType.value : TradeType → String
  | .long => "long"
  | .short => "short"
  | .both => "both"

/-- `OrderType` from `src/core/enums.py`. -/
inductive OrderType where
  | market
  | limit
  | stop
  | stopLimit
deriving DecidableEq, Repr

/-- `OrderStatus` from `src/core/enums.py`. -/
inductive OrderStatus where
  | pending
  | openStatus
  | partiallyFilled
  | filled
  | cancelled
  | rejected
  | expired
deriving DecidableEq, Repr

/-- `SignalType` from `src/core/enums.py`. -/
inductive SignalType where
  | buy
  | sell
  | hold
  | strongBuy
  | strongSell
  | exit
  | entry
deriving DecidableEq, Repr

/-- `StrategyState` from `src/core/enums.py`: IDLE (waiting for entry),
ACTIVE (position open). -/
inductive StrategyState where
  | IDLE
  | ACTIVE
deriving DecidableEq, Repr

/-- `Candle` from `src/data/data_models.py` (OHLCV bar; the `open` field is
named `openPrice` because `open` is a Lean keyword). -/
@[ext] structure Candle where
  timestamp : ℚ
  openPrice : ℚ
  high : ℚ
  low : ℚ
  close : ℚ
  volume : ℚ
deriving DecidableEq, Repr

/-- `Order` from `src/data/data_models.py`.  The source declares
`price: Optional[float]`; every order the engine creates is a limit order
carrying a concrete price, so `price` is modelled as `ℚ`.  `created_at`
defaults in the source to the wall-clock time `datetime.now().timestamp()`;
it is modelled as `0` (the engine never reads it). -/
@[ext] structure Order where
  order_id : String
  symbol : String
  trade_type : TradeType
  order_type : OrderType
  quantity : ℚ
  price : ℚ
  status : OrderStatus := .pending
  created_at : ℚ := 0
  filled_quantity : ℚ := 0
  filled_price : Option ℚ := none
  commission : ℚ := 0
deriving DecidableEq, Repr

/-- `Position` from `src/data/data_models.py`. -/
@[ext] structure Position where
  position_id : String
  symbol : String
  trade_type : TradeType
  entry_price : ℚ
  quantity : ℚ
  entry_time : Option ℚ := none
  entry_orders : List Order := []
deriving DecidableEq, Repr

/-- `Position.is_open` from `src/data/data_models.py`: `quantity > 0`. -/
def Position.is_open (p : Position) : Bool := 0 < p.quantity

/-- `Position.calculate_unrealized_pnl` from `src/data/data_models.py`. -/
def Position.calculate_unrealized_pnl (p : Position) (current_price : ℚ) : ℚ :=
  if p.quantity = 0 then 0
  else if p.trade_type = .long then (current_price - p.entry_price) * p.quantity
  else (p.entry_price - current_price) * p.quantity

/-- `Position.calculate_unrealized_pnl_percent` from
`src/data/data_models.py`. -/
def Position.calculate_unrealized_pnl_percent (p : Position) (current_price : ℚ) : ℚ :=
  if p.entry_price = 0 then 0
  else if p.trade_type = .long then
    (current_price - p.entry_price) / p.entry_price * 100
  else (p.entry_price - current_price) / p.entry_price * 100

/-- `Position.add_entry_order` from `src/data/data_models.py`: fold a filled
order into the position, re-averaging the entry price and appending the order
to `entry_orders`.  (Present in the data model; the backtest engine never
calls it.) -/
def Position.add_entry_order (p : Position) (o : Order) : Position :=
  if o.filled_quantity = 0 then p
  else
    let old_total := p.quantity * p.entry_price
    let new_total := o.filled_quantity * (o.filled_price.getD 0)
    let quantity := p.quantity + o.filled_quantity
    { p with
      quantity := quantity
      entry_price := if quantity > 0 then (old_total + new_total) / quantity else 0
      entry_orders := p.entry_orders ++ [o]
      entry_time := match p.entry_time with
        | none => some o.created_at
        | some t => some t }

/-- `Trade` from `src/data/data_models.py` (an immutable closed-trade
record).  `entry_time` is optional because the engine copies
`position.entry_time`, which is `Optional[float]`. -/
@[ext] structure Trade where
  trade_id : String
  symbol : String
  entry_price : ℚ
  exit_price : ℚ
  quantity : ℚ
  entry_time : Option ℚ
  exit_time : Option ℚ
  pnl : ℚ := 0
  pnl_after_commission : ℚ := 0
  pnl_percent : ℚ := 0
deriving DecidableEq, Repr

/-- `Trade.is_profitable` from `src/data/data_models.py`. -/
def Trade.is_profitable (t : Trade) : Bool := 0 < t.pnl_after_commission

/-- The `OrderExecutor` of `src/core/backtest_engine.py` after `__init__`
has run: the stored rates are the constructor's percentage arguments
divided by 100. -/
@[ext] structure OrderExecutor where
  maker_fee : ℚ
  taker_fee : ℚ
  slippage : ℚ
deriving DecidableEq, Repr

/-- `OrderExecutor.__init__` from `src/core/backtest_engine.py`: percentages
are converted to rates by dividing by 100. -/
def mkOrderExecutor (maker_fee taker_fee slippage : ℚ) : OrderExecutor :=
  { maker_fee := maker_fee / 100
    taker_fee := taker_fee / 100
    slippage := slippage / 100 }

/-- `OrderExecutor.execute_limit_order` from `src/core/backtest_engine.py`:
LONG fills iff `candle.low <= order.price` at `min(order.price, candle.close)`
with slippage `*(1 + slippage)`; SHORT fills iff `candle.high >= order.price`
at `max(order.price, candle.close)` with slippage `*(1 - slippage)`;
otherwise `(0, 0)`. -/
def OrderExecutor.execute_limit_order (ex : OrderExecutor) (o : Order) (c : Candle) :
    ℚ × ℚ :=
  if o.trade_type = .long then
    if c.low ≤ o.price then (o.quantity, min o.price c.close * (1 + ex.slippage))
    else (0, 0)
  else
    if o.price ≤ c.high then (o.quantity, max o.price c.close * (1 - ex.slippage))
    else (0, 0)

/-- `OrderExecutor.calculate_commission` from `src/core/backtest_engine.py`. -/
def OrderExecutor.calculate_commission (ex : OrderExecutor) (quantity price : ℚ)
    (is_maker : Bool) : ℚ :=
  quantity * price * (if is_maker then ex.maker_fee else ex.taker_fee)

/-- C7: for a LONG limit order with positive quantity, `execute_limit_order`
fills iff `candle.low ≤ order.price`; when it fills, the filled quantity is
the full order quantity and the fill price is `min(order.price, candle.close)`
times `(1 + slippage)`; a SHORT fill instead multiplies by `(1 - slippage)`. -/
theorem limit_order_fill_semantics (ex : OrderExecutor) (o : Order) (c : Candle)
    (hq : 0 < o.quantity) :
    (o.trade_type = .long →
      (0 < (ex.execute_limit_order o c).1 ↔ c.low ≤ o.price)) ∧
    (o.trade_type = .long → c.low ≤ o.price →
      ex.execute_limit_order o c =
        (o.quantity, min o.price c.close * (1 + ex.slippage))) ∧
    (o.trade_type = .short → o.price ≤ c.high →
      ex.execute_limit_order o c =
        (o.quantity, max o.price c.close * (1 - ex.slippage))) := by
  refine ⟨fun hl => ?_, fun hl hle => ?_, fun hs hle => ?_⟩
  · unfold OrderExecutor.execute_limit_order
    rw [if_pos hl]
    constructor
    · intro hpos
      by_contra hnle
      rw [if_neg hnle] at hpos
      exact lt_irrefl 0 hpos
    · intro hle
      rw [if_pos hle]
      exact hq
  · unfold OrderExecutor.execute_limit_order
    rw [if_pos hl, if_pos hle]
  · unfold OrderExecutor.execute_limit_order
    have : ¬ o.trade_type = .long := by
      rw [hs]; intro h; cases h
    rw [if_neg this, if_pos hle]

/-- Witness for `limit_order_fill_semantics`: the boundary order with
`price = candle.low` fills at `min(price, close) * (1 + slippage)`. -/
theorem limit_order_fill_semantics_witness :
    (mkOrderExecutor 0.1 0.1 0.05).execute_limit_order
      { order_id := "o1", symbol := "BTCUSDT", trade_type := .long,
        order_type := .limit, quantity := 10, price := 100 }
      { timestamp := 0, openPrice := 101, high := 102, low := 100,
        close := 101, volume := 1 } =
      (10, min 100 101 * (1 + (mkOrderExecutor 0.1 0.1 0.05).slippage)) := by
  have h := (limit_order_fill_semantics (mkOrderExecutor 0.1 0.1 0.05)
    { order_id := "o1", symbol := "BTCUSDT", trade_type := .long,
      order_type := .limit, quantity := 10, price := 100 }
    { timestamp := 0, openPrice := 101, high := 102, low := 100,
      close := 101, volume := 1 } (by norm_num)).2.1 rfl (by norm_num)
  exact h

/-!
## Metrics calculator (`src/backtest/metrics.py`)
-/

/-- `TradeMetrics` from `src/backtest/metrics.py` (timestamps modelled as
rationals). -/
@[ext] structure TradeMetrics where
  entry_time : ℚ
  exit_time : ℚ
  entry_price : ℚ
  exit_price : ℚ
  quantity : ℚ
  profit_loss : ℚ
  profit_loss_percent : ℚ
  duration : ℤ
  max_profit : ℚ
  max_loss : ℚ
deriving DecidableEq, Repr

/-- The value returned by `MetricsCalculator.calculate_profit_factor`: a
finite float or the sentinel `float('inf')`. -/
inductive ProfitFactorValue where
  | finite (q : ℚ)
  | infiniteSentinel
deriving DecidableEq, Repr

/-- `gross_profit` as computed inside `calculate_profit_factor`
(`src/backtest/metrics.py`): sum of the positive `profit_loss` values. -/
def gross_profit (trades : List TradeMetrics) : ℚ :=
  ((trades.filter fun t => 0 < t.profit_loss).map fun t => t.profit_loss).sum

/-- `gross_loss` as computed inside `calculate_profit_factor`
(`src/backtest/metrics.py`): sum of `abs(profit_loss)` over the trades with
negative `profit_loss`. -/
def gross_loss (trades : List TradeMetrics) : ℚ :=
  ((trades.filter fun t => t.profit_loss < 0).map fun t => |t.profit_loss|).sum

/-- `MetricsCalculator.calculate_profit_factor` from
`src/backtest/metrics.py`. -/
def calculate_profit_factor (trades : List TradeMetrics) : ProfitFactorValue :=
  if gross_loss trades = 0 then
    if 0 < gross_profit trades then .infiniteSentinel else .finite 0
  else .finite (gross_profit trades / gross_loss trades)

lemma gross_loss_eq_zero_of_no_losers {trades : List TradeMetrics}
    (h : ∀ t ∈ trades, 0 ≤ t.profit_loss) : gross_loss trades = 0 := by
  unfold gross_loss
  have : trades.filter (fun t => t.profit_loss < 0) = [] := by
    rw [List.filter_eq_nil_iff]
    intro t ht
    simp only [decide_eq_true_eq, not_lt]
    exact h t ht
  rw [this]
  rfl

lemma gross_profit_pos_of_winner {trades : List TradeMetrics}
    (h : ∃ t ∈ trades, 0 < t.profit_loss) : 0 < gross_profit trades := by
  obtain ⟨t, ht, htpos⟩ := h
  unfold gross_profit
  have hmem : t ∈ trades.filter (fun t => 0 < t.profit_loss) := by
    rw [List.mem_filter]
    exact ⟨ht, by simpa using htpos⟩
  refine List.sum_pos _ ?_ (List.ne_nil_of_mem (List.mem_map_of_mem _ hmem))
  intro x hx
  rw [List.mem_map] at hx
  obtain ⟨u, hu, hux⟩ := hx
  rw [List.mem_filter] at hu
  have := hu.2
  simp only [decide_eq_true_eq] at this
  rw [← hux]
  exact this

/-- C8: the profit factor equals gross profit over gross loss when there are
losses, is the infinite sentinel when gross loss is zero and gross profit
positive, is 0 when both are zero; in particular with no losing trade and at
least one winning trade it returns the infinite sentinel. -/
theorem profit_factor_semantics (trades : List TradeMetrics) :
    (gross_loss trades ≠ 0 →
      calculate_profit_factor trades =
        .finite (gross_profit trades / gross_loss trades)) ∧
    (gross_loss trades = 0 → 0 < gross_profit trades →
      calculate_profit_factor trades = .infiniteSentinel) ∧
    (gross_loss trades = 0 → gross_profit trades = 0 →
      calculate_profit_factor trades = .finite 0) ∧
    ((∀ t ∈ trades, 0 ≤ t.profit_loss) → (∃ t ∈ trades, 0 < t.profit_loss) →
      calculate_profit_factor trades = .infiniteSentinel) := by
  refine ⟨fun h => ?_, fun h0 hp => ?_, fun h0 hp => ?_, fun hall hex => ?_⟩
  · unfold calculate_profit_factor
    rw [if_neg h]
  · unfold calculate_profit_factor
    rw [if_pos h0, if_pos hp]
  · unfold calculate_profit_factor
    rw [if_pos h0, if_neg (by rw [hp]; exact lt_irrefl 0)]
  · unfold calculate_profit_factor
    rw [if_pos (gross_loss_eq_zero_of_no_losers hall),
        if_pos (gross_profit_pos_of_winner hex)]

/-- Witness for `profit_factor_semantics`: a single winning trade produces
the infinite sentinel, not 0 and not a crash. -/
theorem profit_factor_semantics_witness :
    calculate_profit_factor
      [{ entry_time := 0, exit_time := 1, entry_price := 100, exit_price := 110,
         quantity := 1, profit_loss := 10, profit_loss_percent := 10,
         duration := 1, max_profit := 10, max_loss := 0 }] =
      .infiniteSentinel := by
  exact (profit_factor_semantics _).2.2.2
    (by intro t ht; simp at ht; rw [ht]; norm_num)
    ⟨{ entry_time := 0, exit_time := 1, entry_price := 100, exit_price := 110,
       quantity := 1, profit_loss := 10, profit_loss_percent := 10,
       duration := 1, max_profit := 10, max_loss := 0 }, by simp, by norm_num⟩

/-!
## Portfolio state (`src/core/backtest_engine.py`)

The engine's `PortfolioState` keeps a dict `symbol -> Position`; the
embedding is specialised to a single trading symbol, so the dict becomes an
`Option Position`.
-/

/-- `PortfolioState` from `src/core/backtest_engine.py` (single-symbol:
`positions` becomes `position : Option Position`). -/
@[ext] structure PortfolioState where
  timestamp : ℚ
  cash_balance : ℚ
  position : Option Position := none
  closed_trades : List Trade := []
  total_fees : ℚ := 0
deriving DecidableEq, Repr

/-- `PortfolioState.total_equity` from `src/core/backtest_engine.py`: the
source computes `cash_balance` plus the sum over open positions of
`pos.calculate_unrealized_pnl(0.0)` — the literal argument is `0.0`, not a
market price. -/
def PortfolioState.total_equity (pf : PortfolioState) : ℚ :=
  pf.cash_balance +
    (match pf.position with
     | none => 0
     | some p => p.calculate_unrealized_pnl 0)

/-- A sample open LONG position: quantity 1, entered at 100. -/
def samplePosition : Position :=
  { position_id := "p", symbol := "BTCUSDT", trade_type := .long,
    entry_price := 100, quantity := 1 }

/-- A sample portfolio: cash 1000 and the open position `samplePosition`. -/
def samplePortfolio : PortfolioState :=
  { timestamp := 0, cash_balance := 1000, position := some samplePosition }

/-- C3 (counterexample evaluation): `samplePortfolio` (cash 1000, LONG
quantity 1 entered at 100), marked at a current market price of 110,
reports `total_equity = 900`, not `1000 + (110 - 100) * 1 = 1010`:
the code values every open position at price `0.0` rather than at the
current market price. -/
theorem total_equity_ignores_market_price :
    samplePortfolio.total_equity = 900 ∧
    samplePortfolio.cash_balance +
      samplePosition.calculate_unrealized_pnl 110 = 1010 := by
  constructor
  · unfold samplePortfolio samplePosition PortfolioState.total_equity
      Position.calculate_unrealized_pnl
    norm_num
  · unfold samplePortfolio samplePosition Position.calculate_unrealized_pnl
    norm_num

/-!
## Adaptive parameter engine (`src/adaptive_parameters.py`)

Only the state and the volatility classification are needed here; the
parameter-scaling pipeline is driven by `current_scaled`, which remains
`None` throughout the backtest engine (the engine never calls
`update_adaptive_parameters`).
-/

/-- `ScaledParameters` from `src/adaptive_parameters.py`. -/
@[ext] structure ScaledParameters where
  grid_spacing_percent : ℚ
  order_volume : ℚ
  take_profit_percent : ℚ
  max_drawdown_percent : ℚ
  volatility_level : String
  scaling_factor : ℚ
  timestamp : ℚ := 0
deriving DecidableEq, Repr

/-- `AdaptiveParameterConfig` from `src/adaptive_parameters.py` (numeric
fields; the `scaling_modes` dict only drives `_scale_parameter`, which no
claim exercises). -/
@[ext] structure AdaptiveParameterConfig where
  base_grid_spacing_percent : ℚ := 0.5
  base_order_volume : ℚ := 0.02
  base_take_profit_percent : ℚ := 5
  base_max_drawdown_percent : ℚ := 8
  low_volatility_threshold : ℚ := 1
  high_volatility_threshold : ℚ := 5
  min_scaling_factor : ℚ := 0.4
  max_scaling_factor : ℚ := 2.5
  bb_weight : ℚ := 0.25
  gk_weight : ℚ := 0.25
  atr_weight : ℚ := 0.25
  ewma_weight : ℚ := 0.25
deriving DecidableEq, Repr

/-- The default `AdaptiveParameterConfig()`. -/
def defaultAdaptiveParameterConfig : AdaptiveParameterConfig := {}

/-!
## Volatility calculator (`src/volatility.py`)
-/

/-- `numpy.mean` over a rational list (population mean). -/
def ratMean (l : List ℚ) : ℚ := l.sum / l.length

/-- `numpy.var` over a rational list (population variance, denominator
`len`). -/
def ratVariance (l : List ℚ) : ℚ :=
  ((l.map fun r => (r - ratMean l) ^ 2).sum) / l.length

/-- Python's `l[-n:]` for `n > 0`: the last `n` elements. -/
def lastN {α : Type} (n : ℕ) (l : List α) : List α := l.drop (l.length - n)

/-- Consecutive simple returns of a close-price series:
`(closes[i] - closes[i-1]) / closes[i-1]` for `i = 1 .. len-1`. -/
def listReturns (closes : List ℚ) : List ℚ :=
  (closes.zip closes.tail).map fun pc => (pc.2 - pc.1) / pc.1

/-- `VolatilityMeasures` from `src/volatility.py`.  The measures are floats
produced through square roots and logarithms, so they live in `ℝ`. -/
@[ext] structure VolatilityMeasures where
  bollinger_bandwidth : ℝ
  garman_klass : ℝ
  atr : ℝ
  ewma : ℝ
  composite : ℝ

/-- The mutable state of `VolatilityCalculator` from `src/volatility.py`. -/
@[ext] structure VolatilityCalculator where
  bb_period : ℕ := 20
  bb_std_dev : ℚ := 2
  atr_period : ℕ := 14
  ewma_alpha : ℚ := 0.33
  closes : List ℚ := []
  highs : List ℚ := []
  lows : List ℚ := []
  opens : List ℚ := []
  previous_ewma : Option ℚ := none

/-- `VolatilityCalculator()` with the default constructor arguments. -/
def mkVolatilityCalculator : VolatilityCalculator := {}

/-- `VolatilityCalculator._calculate_bollinger_bandwidth` from
`src/volatility.py` (`np.std` is the square root of the population
variance). -/
noncomputable def VolatilityCalculator.calculate_bollinger_bandwidth
    (s : VolatilityCalculator) : ℝ :=
  if s.closes.length < s.bb_period then 0
  else
    let recent := lastN s.bb_period s.closes
    ((s.bb_std_dev : ℝ) * Real.sqrt ((ratVariance recent : ℚ) : ℝ)) /
      ((ratMean recent : ℚ) : ℝ) * 100

/-- `VolatilityCalculator._calculate_garman_klass` from `src/volatility.py`. -/
noncomputable def VolatilityCalculator.calculate_garman_klass
    (s : VolatilityCalculator) : ℝ :=
  if s.closes.length < s.atr_period then 0
  else
    let recent_h := lastN s.atr_period s.highs
    let recent_l := lastN s.atr_period s.lows
    let recent_c := lastN s.atr_period s.closes
    let recent_o := lastN s.atr_period s.opens
    let gk_sum : ℝ :=
      (((recent_h.zip recent_l).zip (recent_c.zip recent_o)).map fun x =>
        1 / 2 * (Real.log ((x.1.1 : ℝ) / (x.1.2 : ℝ))) ^ 2 -
          (2 * Real.log 2 - 1) * (Real.log ((x.2.1 : ℝ) / (x.2.2 : ℝ))) ^ 2).sum
    let gk_variance := gk_sum / (recent_h.length : ℝ)
    Real.sqrt |gk_variance| * 100

/-- The true-range series of `_calculate_atr` (`src/volatility.py`):
`max(high[i]-low[i], |high[i]-close[i-1]|, |low[i]-close[i-1]|)` for
`i = 1 .. len-1`. -/
def trueRanges (highs lows closes : List ℚ) : List ℚ :=
  ((highs.tail.zip lows.tail).zip closes.dropLast).map fun x =>
    max (x.1.1 - x.1.2) (max |x.1.1 - x.2| |x.1.2 - x.2|)

/-- `VolatilityCalculator._calculate_atr` from `src/volatility.py` (pure
rational arithmetic). -/
def VolatilityCalculator.calculate_atr (s : VolatilityCalculator) : ℚ :=
  if s.closes.length < s.atr_period + 1 then 0
  else ratMean (lastN s.atr_period (trueRanges s.highs s.lows s.closes))

/-- `VolatilityCalculator._calculate_ewma` from `src/volatility.py`; returns
the new `previous_ewma` state together with the EWMA volatility value. -/
noncomputable def VolatilityCalculator.calculate_ewma
    (s : VolatilityCalculator) : Option ℚ × ℝ :=
  if s.closes.length < 2 then (s.previous_ewma, 0)
  else
    let returns := listReturns s.closes
    let prev' : ℚ :=
      match s.previous_ewma with
      | none => if returns.isEmpty then 0 else ratVariance returns
      | some p => s.ewma_alpha * (returns.getLastD 0) ^ 2 + (1 - s.ewma_alpha) * p
    (some prev', Real.sqrt |((prev' : ℚ) : ℝ)| * 100)

/-- `VolatilityCalculator.update` from `src/volatility.py`: append the new
candle to the buffers, evict the oldest entry once the bound
`max(bb_period, atr_period) + 5` is exceeded, recompute all four measures,
and return a fresh snapshot whose `composite` field is the literal `0.0`
written in the source (the comment there says "Will be set after all
calculations", but no code ever sets it). -/
noncomputable def VolatilityCalculator.update (s : VolatilityCalculator)
    (high low close open_price : ℚ) :
    VolatilityCalculator × VolatilityMeasures :=
  let s := { s with
    closes := s.closes ++ [close], highs := s.highs ++ [high],
    lows := s.lows ++ [low], opens := s.opens ++ [open_price] }
  let max_history := max s.bb_period s.atr_period + 5
  let s := if max_history < s.closes.length then
      { s with closes := s.closes.tail, highs := s.highs.tail,
               lows := s.lows.tail, opens := s.opens.tail }
    else s
  let ew := s.calculate_ewma
  ({ s with previous_ewma := ew.1 },
   { bollinger_bandwidth := s.calculate_bollinger_bandwidth
     garman_klass := s.calculate_garman_klass
     atr := ((s.calculate_atr : ℚ) : ℝ)
     ewma := ew.2
     composite := 0 })

open Classical in
/-- `VolatilityCalculator.get_composite_volatility` from `src/volatility.py`:
equal 0.25 weights, with the raw-magnitude ATR renormalised by `* 100` when
positive. -/
noncomputable def get_composite_volatility (m : VolatilityMeasures) : ℝ :=
  if m.bollinger_bandwidth = 0 ∧ m.garman_klass = 0 ∧ m.atr = 0 ∧ m.ewma = 0
  then 0
  else
    let normalized_atr := if 0 < m.atr then m.atr * 100 else 0
    m.bollinger_bandwidth * 0.25 + m.garman_klass * 0.25 +
      normalized_atr * 0.25 + m.ewma * 0.25

/-- Three consecutive `update` calls on a fresh default calculator, with flat
candles at 100, 100 and 110. -/
noncomputable def volRunState : VolatilityCalculator × VolatilityMeasures :=
  let r1 := mkVolatilityCalculator.update 100 100 100 100
  let r2 := r1.1.update 100 100 100 100
  r2.1.update 110 110 110 110

lemma volRunState_snd :
    volRunState.2 =
      { bollinger_bandwidth := 0, garman_klass := 0, atr := 0,
        ewma := Real.sqrt ((33 : ℝ) / 10000) * 100, composite := 0 } := by
  unfold volRunState VolatilityCalculator.update mkVolatilityCalculator
    VolatilityCalculator.calculate_bollinger_bandwidth
    VolatilityCalculator.calculate_garman_klass
    VolatilityCalculator.calculate_atr
    VolatilityCalculator.calculate_ewma
  norm_num [listReturns, ratVariance, ratMean, lastN, trueRanges, List.getLastD]
  rw [abs_of_nonneg (by norm_num : (0 : ℝ) ≤ 33 / 10000)]
  rw [Real.sqrt_div (by norm_num : (0 : ℝ) ≤ 33)]

/-- C6 (counterexample evaluation): after three updates (closes 100, 100,
110) the snapshot returned by `update` carries `composite = 0`, although the
weighted combination of its own four measures — as computed by the source's
own `get_composite_volatility` — is strictly positive. -/
theorem update_composite_is_zero_not_weighted_sum :
    volRunState.2.composite = 0 ∧
    0 < get_composite_volatility volRunState.2 := by
  have h := volRunState_snd
  constructor
  · rw [h]
  · rw [h]
    unfold get_composite_volatility
    have hewma : (0 : ℝ) < Real.sqrt ((33 : ℝ) / 10000) * 100 := by
      have : (0 : ℝ) < Real.sqrt ((33 : ℝ) / 10000) :=
        Real.sqrt_pos.mpr (by norm_num)
      linarith
    rw [if_neg]
    · simp only
      norm_num
    · intro hc
      have := hc.2.2.2
      simp only at this
      linarith

/-- `AdaptiveParameterEngine._classify_volatility` from
`src/adaptive_parameters.py`, with the source's branch order:
`< low` → LOW, then `> high` → HIGH, then `> 1.5 * high` → EXTREME,
else NORMAL. -/
def classify_volatility (config : AdaptiveParameterConfig) (volatility : ℚ) :
    String :=
  if volatility < config.low_volatility_threshold then "LOW"
  else if config.high_volatility_threshold < volatility then "HIGH"
  else if config.high_volatility_threshold * 1.5 < volatility then "EXTREME"
  else "NORMAL"

/-- The state of `AdaptiveParameterEngine` from `src/adaptive_parameters.py`. -/
@[ext] structure AdaptiveParameterEngine where
  config : AdaptiveParameterConfig := {}
  volatility_history : List ℝ := []
  scaling_history : List ScaledParameters := []

/-- C5 (counterexample evaluation): with the default thresholds (low 1,
high 5), a composite volatility of 10 — strictly above 1.5 × high = 7.5 —
classifies as "HIGH", not "EXTREME": the source tests `> high` before
`> 1.5 * high`, so the EXTREME branch is unreachable. -/
theorem classify_volatility_extreme_unreachable_at_10 :
    classify_volatility defaultAdaptiveParameterConfig 10 = "HIGH" ∧
    (7.5 : ℚ) < 10 := by
  constructor
  · unfold classify_volatility defaultAdaptiveParameterConfig
    norm_num
  · norm_num

/-- The EXTREME branch of `_classify_volatility` is dead code whenever the
high threshold is nonnegative: every volatility above `1.5 * high` already
takes the HIGH branch. -/
theorem classify_volatility_never_extreme (config : AdaptiveParameterConfig)
    (hhigh : 0 ≤ config.high_volatility_threshold) (v : ℚ) :
    classify_volatility config v ≠ "EXTREME" := by
  unfold classify_volatility
  by_cases h1 : v < config.low_volatility_threshold
  · rw [if_pos h1]; decide
  · rw [if_neg h1]
    by_cases h2 : config.high_volatility_threshold < v
    · rw [if_pos h2]; decide
    · rw [if_neg h2]
      have h3 : ¬ config.high_volatility_threshold * 1.5 < v := by
        push_neg at h2 ⊢
        calc v ≤ config.high_volatility_threshold := h2
        _ ≤ config.high_volatility_threshold * 1.5 := by nlinarith
      rw [if_neg h3]
      decide

/-!
## Grid trading strategy (`src/strategies/grid_strategy.py`)
-/

/-- `GridTradingParams` from `src/config_models.py` (the fields the strategy
reads; note it has NO `min_volatility_threshold` field — that field lives on
`StrategyConfig`, which the strategy never sees). -/
@[ext] structure GridTradingParams where
  initial_position_size : ℚ
  grid_spacing_percent : ℚ
  grid_levels : ℕ
  take_profit_percent : ℚ
  max_drawdown_percent : ℚ
  max_position_size_percent : ℚ := 20
deriving DecidableEq, Repr

/-- `Signal` from `src/data/data_models.py`.  The `generated_at` wall-clock
timestamp and the free-text `rationale` are metadata never read by the
engine and are omitted. -/
structure Signal where
  signal_type : SignalType
  symbol : String
  strength : ℝ

/-- The state of `GridTradingStrategy` from `src/strategies/grid_strategy.py`
(fields of the `Strategy` base class, the `AdaptiveStrategyMixin` fields set
by `initialize_adaptive`, and the strategy's own fields).
`current_min_price` starts as `float('inf')` in the source, modelled here by
`none`. -/
@[ext] structure GridTradingStrategy where
  symbol : String
  trade_type : TradeType
  state : StrategyState
  position : Option Position
  entry_orders : List Order
  exit_orders : List Order
  vol_calculator : VolatilityCalculator
  param_engine : AdaptiveParameterEngine
  current_measures : Option VolatilityMeasures
  current_scaled : Option ScaledParameters
  params : GridTradingParams
  grid_prices : List ℚ
  entry_signal_generated : Bool
  current_max_price : ℚ
  current_min_price : Option ℚ

/-- `GridTradingStrategy.__init__` from `src/strategies/grid_strategy.py`. -/
def mkGridTradingStrategy (symbol : String) (trade_type : TradeType)
    (params : GridTradingParams) : GridTradingStrategy :=
  { symbol := symbol
    trade_type := trade_type
    state := .IDLE
    position := none
    entry_orders := []
    exit_orders := []
    vol_calculator := mkVolatilityCalculator
    param_engine := {}
    current_measures := none
    current_scaled := none
    params := params
    grid_prices := []
    entry_signal_generated := false
    current_max_price := 0
    current_min_price := none }

/-- `Strategy.reset` from `src/strategies/grid_strategy.py`: sets `state` to
IDLE, clears `position`, clears `entry_signal_generated`, and empties both
order lists.  Nothing else is touched. -/
def GridTradingStrategy.reset (s : GridTradingStrategy) : GridTradingStrategy :=
  { s with
    state := .IDLE
    position := none
    entry_signal_generated := false
    entry_orders := []
    exit_orders := [] }

/-- `MarketData.calculate_volatility` from `src/data/data_models.py`:
standard deviation of the simple returns of the last `period + 1` closes,
times 100. -/
noncomputable def calculate_volatility (candles : List Candle) (period : ℕ) : ℝ :=
  let cs := lastN (period + 1) candles
  if cs.length < 2 then 0
  else
    let returns := listReturns (cs.map fun c => c.close)
    if returns.isEmpty then 0
    else Real.sqrt ((ratVariance returns : ℚ) : ℝ) * 100

open Classical in
/-- `GridTradingStrategy.analyze` from `src/strategies/grid_strategy.py`:
while IDLE with no latched entry signal, compute the trailing volatility and
emit one entry signal (latching `entry_signal_generated`) when it meets the
minimum threshold.  `GridTradingParams` has no `min_volatility_threshold`
attribute, so the source's `hasattr` fallback `0.1` always applies. -/
noncomputable def GridTradingStrategy.analyze (strat : GridTradingStrategy)
    (market_data : List Candle) : GridTradingStrategy × List Signal :=
  if strat.state = .IDLE ∧ strat.entry_signal_generated = false then
    let volatility := calculate_volatility market_data 20
    let min_vol_threshold : ℝ := 0.1
    if min_vol_threshold ≤ volatility then
      ({ strat with entry_signal_generated := true },
       [{ signal_type := if strat.trade_type = .long then .buy else .sell
          symbol := strat.symbol
          strength := min (volatility / 10) 1 }])
    else (strat, [])
  else (strat, [])

/-- `GridTradingStrategy.generate_grid_orders` from
`src/strategies/grid_strategy.py`: N equally spaced limit orders of
`position_size / grid_levels` each, descending below `entry_price` for LONG
and ascending above it for SHORT; every price is also appended to
`grid_prices`.  (The `current_price` parameter is unused in the source
body.) -/
def GridTradingStrategy.generate_grid_orders (strat : GridTradingStrategy)
    (entry_price position_size _current_price : ℚ) :
    GridTradingStrategy × List Order :=
  let grid_spacing_percent := match strat.current_scaled with
    | some sc => sc.grid_spacing_percent
    | none => strat.params.grid_spacing_percent
  let size_per_order := position_size / (strat.params.grid_levels : ℚ)
  let grid_spacing := grid_spacing_percent / 100
  let prices := (List.range strat.params.grid_levels).map fun level =>
    if strat.trade_type = .long then entry_price * (1 - grid_spacing * (level : ℚ))
    else entry_price * (1 + grid_spacing * (level : ℚ))
  let orders := (List.range strat.params.grid_levels).map fun level =>
    ({ order_id := strat.symbol ++ "_" ++ strat.trade_type.value ++
         "_grid_" ++ toString level
       symbol := strat.symbol
       trade_type := strat.trade_type
       order_type := .limit
       quantity := size_per_order
       price := if strat.trade_type = .long then
           entry_price * (1 - grid_spacing * (level : ℚ))
         else entry_price * (1 + grid_spacing * (level : ℚ)) } : Order)
  ({ strat with grid_prices := strat.grid_prices ++ prices }, orders)

/-- `GridTradingStrategy.check_exit_conditions` from
`src/strategies/grid_strategy.py`.  `position or self.position` picks the
argument when present, else the strategy's own position; with no open
position the method returns `None` without touching any state.  Otherwise it
updates the tracked price extremes, then checks take-profit, and — only when
`entry_orders` is non-empty — the drawdown-based stop loss.  (The local
`drawdown` variable of the source is computed but never read; it is kept
here as `_drawdown`.) -/
def GridTradingStrategy.check_exit_conditions (strat : GridTradingStrategy)
    (current_price account_equity : ℚ) (position : Option Position) :
    GridTradingStrategy × Option Signal :=
  let pos := match position with
    | some p => some p
    | none => strat.position
  match pos with
  | none => (strat, none)
  | some p =>
    if p.is_open = false then (strat, none)
    else
      let strat := { strat with
        current_max_price := max strat.current_max_price current_price
        current_min_price := some (match strat.current_min_price with
          | none => current_price
          | some m => min m current_price) }
      let tp_dd := match strat.current_scaled with
        | some sc => (sc.take_profit_percent, sc.max_drawdown_percent)
        | none => (strat.params.take_profit_percent,
                   strat.params.max_drawdown_percent)
      let pnl_percent := p.calculate_unrealized_pnl_percent current_price
      if tp_dd.1 ≤ pnl_percent then
        (strat, some { signal_type := .exit, symbol := strat.symbol, strength := 1 })
      else if p.entry_orders.isEmpty = false then
        let _drawdown : ℚ :=
          if strat.trade_type = .long then
            if 0 < strat.current_max_price then
              (strat.current_max_price - current_price) /
                strat.current_max_price * 100
            else 0
          else
            match strat.current_min_price with
            | some m => if 0 < m then (current_price - m) / m * 100 else 0
            | none => 0
        let max_loss_allowed := account_equity * (tp_dd.2 / 100)
        let current_loss := |p.calculate_unrealized_pnl current_price|
        if max_loss_allowed ≤ current_loss then
          (strat, some { signal_type := .exit, symbol := strat.symbol, strength := 1 })
        else (strat, none)
      else (strat, none)

/-- Parameters used by the concrete runs below: one grid level, 0.5% grid
spacing, 5% take profit, 8% max drawdown. -/
def testParams : GridTradingParams :=
  { initial_position_size := 100
    grid_spacing_percent := 0.5
    grid_levels := 1
    take_profit_percent := 5
    max_drawdown_percent := 8 }

/-- A freshly constructed LONG grid strategy. -/
def sampleStrategy : GridTradingStrategy :=
  mkGridTradingStrategy "BTCUSDT" .long testParams

/-- C10: `reset` rewrites exactly the five fields `state`, `position`,
`entry_signal_generated`, `entry_orders` and `exit_orders`; every other
field — in particular `grid_prices`, `current_max_price` and
`current_min_price` — is copied unchanged, so price extremes and grid
levels survive into the next entry cycle. -/
theorem reset_touches_exactly_five_fields (s : GridTradingStrategy) :
    s.reset = { s with
      state := .IDLE
      position := none
      entry_signal_generated := false
      entry_orders := []
      exit_orders := [] } ∧
    s.reset.grid_prices = s.grid_prices ∧
    s.reset.current_max_price = s.current_max_price ∧
    s.reset.current_min_price = s.current_min_price ∧
    s.reset.vol_calculator = s.vol_calculator ∧
    s.reset.current_scaled = s.current_scaled ∧
    s.reset.params = s.params :=
  ⟨rfl, rfl, rfl, rfl, rfl, rfl, rfl⟩

/-- C9 (counterexample evaluation): calling `check_exit_conditions` on a
strategy with no open position (argument `none`, own position `none`)
returns the ordinary no-signal value `(strategy unchanged, none)` — a
silent no-op, not a loud contract failure. -/
theorem check_exit_no_position_is_silent :
    sampleStrategy.check_exit_conditions 100 1000 none =
      (sampleStrategy, none) := rfl

/-- C9 (amended): with no open position — the argument and the strategy's
own position both `None`, or the selected position not open —
`check_exit_conditions` silently returns no exit signal and leaves the
strategy unchanged, rather than raising a contract violation. -/
theorem check_exit_conditions_no_open_position_silently_none
    (s : GridTradingStrategy) (current_price account_equity : ℚ)
    (position : Option Position) :
    (position = none → s.position = none →
      s.check_exit_conditions current_price account_equity position = (s, none)) ∧
    (∀ p, position = some p → p.is_open = false →
      s.check_exit_conditions current_price account_equity position = (s, none)) ∧
    (∀ p, position = none → s.position = some p → p.is_open = false →
      s.check_exit_conditions current_price account_equity position = (s, none)) := by
  refine ⟨fun hp hs => ?_, fun p hp hopen => ?_, fun p hp hs hopen => ?_⟩
  · unfold GridTradingStrategy.check_exit_conditions
    rw [hp, hs]
  · unfold GridTradingStrategy.check_exit_conditions
    rw [hp]
    simp only [hopen, if_pos]
  · unfold GridTradingStrategy.check_exit_conditions
    rw [hp, hs]
    simp only [hopen, if_pos]

/-- Witness for `check_exit_conditions_no_open_position_silently_none`: a
closed (quantity-zero) position argument yields the silent `(s, none)`. -/
theorem check_exit_conditions_no_open_position_silently_none_witness :
    sampleStrategy.check_exit_conditions 50 1000
      (some { position_id := "q", symbol := "BTCUSDT", trade_type := .long,
              entry_price := 100, quantity := 0 }) =
      (sampleStrategy, none) := by
  refine (check_exit_conditions_no_open_position_silently_none
    sampleStrategy 50 1000 _).2.1
    { position_id := "q", symbol := "BTCUSDT", trade_type := .long,
      entry_price := 100, quantity := 0 } rfl ?_
  decide

/-!
## Backtest engine (`src/core/backtest_engine.py`)

The engine is embedded specialised to a single trading symbol: the source's
per-candle loop runs the identical block once per symbol, and every claim
under study concerns that per-symbol block.  The `positions` dict becomes
the `Option Position` of `PortfolioState`; the two entry blocks (LONG and
SHORT), which are verbatim copies of each other in the source, are a single
`entryStep` applied to each optional strategy.

`portfolio_history.append(portfolio)` in the source appends a *reference*
to the one `PortfolioState` object that the loop mutates in place.  The
embedding therefore records only the number of appends (`history_len`);
what a reader of the history observes at any moment is
`observed_portfolio_history`: every entry shows the object's current state.
-/

/-- The fields of `BacktestConfig` (`src/config_models.py`) that the engine
reads. -/
@[ext] structure BacktestConfig where
  initial_balance : ℚ
  maker_fee_percent : ℚ := 0.1
  taker_fee_percent : ℚ := 0.1
  slippage_percent : ℚ := 0.05
deriving DecidableEq, Repr

/-- The engine's loop state: the single mutated-in-place portfolio, the
pending-order list for the symbol, the two optional strategies, the number
of references appended to `portfolio_history`, and `all_trades`. -/
@[ext] structure EngineState where
  portfolio : PortfolioState
  pending_orders : List Order
  long_strat : Option GridTradingStrategy
  short_strat : Option GridTradingStrategy
  history_len : ℕ
  all_trades : List Trade

/-- STEP 1 of the candle loop (`src/core/backtest_engine.py`): test every
pending order against the candle; orders with a positive filled quantity
move (in order) into the filled list with their fill data, the rest remain
pending. -/
def fillsPartition (ex : OrderExecutor) (c : Candle) :
    List Order → List (Order × ℚ × ℚ) × List Order
  | [] => ([], [])
  | o :: rest =>
    let fq_fp := ex.execute_limit_order o c
    let rec_rest := fillsPartition ex c rest
    if 0 < fq_fp.1 then ((o, fq_fp.1, fq_fp.2) :: rec_rest.1, rec_rest.2)
    else (rec_rest.1, o :: rec_rest.2)

/-- STEP 2 of the candle loop (`src/core/backtest_engine.py`, lines
256-287): charge the maker commission, then either create a new `Position`
— constructed WITHOUT the `entry_orders` argument, so the dataclass default
`[]` applies and the filled order is not recorded — or re-average the
existing position (again without appending to `entry_orders`), and debit
cash by `quantity * fill_price`. -/
def applyFilledOrder (ex : OrderExecutor) (symbol : String) (candle_idx : ℕ)
    (c : Candle) (pf : PortfolioState) (fo : Order × ℚ × ℚ) : PortfolioState :=
  let order := fo.1
  let filled_qty := fo.2.1
  let fill_price := fo.2.2
  let commission := ex.calculate_commission filled_qty fill_price true
  let pf := { pf with
    total_fees := pf.total_fees + commission
    cash_balance := pf.cash_balance - commission }
  let pf := match pf.position with
    | none =>
      let newPos : Position :=
        { position_id := symbol ++ "_" ++ order.trade_type.value ++ "_" ++
            toString candle_idx
          symbol := symbol
          trade_type := order.trade_type
          entry_price := fill_price
          quantity := filled_qty
          entry_time := some c.timestamp }
      { pf with position := some newPos }
    | some pos =>
      let total_qty := pos.quantity + filled_qty
      let newPos : Position :=
        { pos with
          entry_price := (pos.entry_price * pos.quantity +
            fill_price * filled_qty) / total_qty
          quantity := total_qty
          entry_time := match pos.entry_time with
            | none => some c.timestamp
            | some t => some t }
      { pf with position := some newPos }
  { pf with cash_balance := pf.cash_balance - filled_qty * fill_price }

open Classical in
/-- STEP 3 of the candle loop (`src/core/backtest_engine.py`, lines
296-325): when the strategy exists and holds no position of its own, ask it
to analyze; on a signal, size the position at 10% of the initial balance and
push the generated grid orders into the pending set.  The source repeats
this block verbatim for the LONG and the SHORT strategy. -/
noncomputable def entryStep (cfg : BacktestConfig) (market_data : List Candle)
    (c : Candle) (strat : Option GridTradingStrategy) (pending : List Order) :
    Option GridTradingStrategy × List Order :=
  match strat with
  | none => (none, pending)
  | some st =>
    if st.position = none then
      let st_signals := st.analyze market_data
      if st_signals.2.isEmpty then (some st_signals.1, pending)
      else
        let entry_price := c.close
        let position_size := cfg.initial_balance * 0.1 / entry_price
        let st_orders := st_signals.1.generate_grid_orders entry_price
          position_size c.close
        (some st_orders.1, pending ++ st_orders.2)
    else (some st, pending)

/-- STEP 4 of the candle loop (`src/core/backtest_engine.py`, lines
331-403): when a position is open, ask the matching strategy for an exit
decision (this updates the strategy's tracked extremes); on an exit signal,
realise the P&L, charge commission, credit cash, record the `Trade` in both
trade lists, and delete the position.  Nothing in this block ever resets
the strategy or clears `entry_signal_generated`. -/
def exitStep (ex : OrderExecutor) (symbol : String) (candle_idx : ℕ)
    (c : Candle) (st : EngineState) : EngineState :=
  match st.portfolio.position with
  | none => st
  | some position =>
    let current_price := c.close
    if position.trade_type = .long then
      match st.long_strat with
      | none => st
      | some ls =>
        let ls_sig := ls.check_exit_conditions current_price
          st.portfolio.total_equity (some position)
        let st := { st with long_strat := some ls_sig.1 }
        match ls_sig.2 with
        | none => st
        | some _ =>
          let pnl := (current_price - position.entry_price) * position.quantity
          let commission := ex.calculate_commission position.quantity
            current_price true
          let trade : Trade :=
            { trade_id := symbol ++ "_L_" ++ toString candle_idx
              symbol := symbol
              entry_price := position.entry_price
              exit_price := current_price
              quantity := position.quantity
              entry_time := position.entry_time
              exit_time := some c.timestamp
              pnl := pnl
              pnl_after_commission := pnl - commission
              pnl_percent := if 0 < position.entry_price then
                  pnl / (position.entry_price * position.quantity) * 100
                else 0 }
          { st with
            portfolio := { st.portfolio with
              total_fees := st.portfolio.total_fees + commission
              cash_balance := st.portfolio.cash_balance +
                (position.quantity * current_price - commission)
              closed_trades := st.portfolio.closed_trades ++ [trade]
              position := none }
            all_trades := st.all_trades ++ [trade] }
    else if position.trade_type = .short then
      match st.short_strat with
      | none => st
      | some ss =>
        let ss_sig := ss.check_exit_conditions current_price
          st.portfolio.total_equity (some position)
        let st := { st with short_strat := some ss_sig.1 }
        match ss_sig.2 with
        | none => st
        | some _ =>
          let pnl := (position.entry_price - current_price) * position.quantity
          let commission := ex.calculate_commission position.quantity
            current_price true
          let trade : Trade :=
            { trade_id := symbol ++ "_S_" ++ toString candle_idx
              symbol := symbol
              entry_price := position.entry_price
              exit_price := current_price
              quantity := position.quantity
              entry_time := position.entry_time
              exit_time := some c.timestamp
              pnl := pnl
              pnl_after_commission := pnl - commission
              pnl_percent := if 0 < position.entry_price then
                  pnl / (position.entry_price * position.quantity) * 100
                else 0 }
          { st with
            portfolio := { st.portfolio with
              total_fees := st.portfolio.total_fees + commission
              cash_balance := st.portfolio.cash_balance +
                (position.quantity * current_price - commission)
              closed_trades := st.portfolio.closed_trades ++ [trade]
              position := none }
            all_trades := st.all_trades ++ [trade] }
    else st

/-- One iteration of the candle loop of `BacktestEngine.run_backtest`
(`src/core/backtest_engine.py`): fills, position updates, entry analysis for
both strategies, exit check, and finally the history append — which in the
source stores a reference to the live portfolio object, recorded here as
`history_len + 1`. -/
noncomputable def processIdx (cfg : BacktestConfig) (market_data : List Candle)
    (symbol : String) (st : EngineState) (candle_idx : ℕ) : EngineState :=
  match market_data.get? candle_idx with
  | none => st
  | some candle =>
    let ex := mkOrderExecutor cfg.maker_fee_percent cfg.taker_fee_percent
      cfg.slippage_percent
    let fills := fillsPartition ex candle st.pending_orders
    let st := { st with pending_orders := fills.2 }
    let st := { st with
      portfolio := fills.1.foldl (applyFilledOrder ex symbol candle_idx candle)
        st.portfolio }
    let long_res := entryStep cfg market_data candle st.long_strat
      st.pending_orders
    let st := { st with long_strat := long_res.1, pending_orders := long_res.2 }
    let short_res := entryStep cfg market_data candle st.short_strat
      st.pending_orders
    let st := { st with short_strat := short_res.1, pending_orders := short_res.2 }
    let st := exitStep ex symbol candle_idx candle st
    { st with history_len := st.history_len + 1 }

/-- The engine state at the start of `run_backtest`: fresh portfolio holding
the initial balance, no pending orders, no history, no trades. -/
def initEngineState (cfg : BacktestConfig)
    (long_strat short_strat : Option GridTradingStrategy) : EngineState :=
  { portfolio := { timestamp := 0, cash_balance := cfg.initial_balance }
    pending_orders := []
    long_strat := long_strat
    short_strat := short_strat
    history_len := 0
    all_trades := [] }

/-- `BacktestEngine.run_backtest` (`src/core/backtest_engine.py`) for a
single symbol: fold the candle loop over all candle indices. -/
noncomputable def run_backtest (cfg : BacktestConfig) (market_data : List Candle)
    (symbol : String) (long_strat short_strat : Option GridTradingStrategy) :
    EngineState :=
  (List.range market_data.length).foldl (processIdx cfg market_data symbol)
    (initEngineState cfg long_strat short_strat)

/-- What a reader of `engine.portfolio_history` observes: the source list
holds `history_len` references to the single portfolio object, so every
entry shows that object's current state. -/
def observed_portfolio_history (st : EngineState) : List PortfolioState :=
  List.replicate st.history_len st.portfolio

/-!
## A concrete three-candle run

Flat candles at 100, 100 and then 110 with a LONG-only grid strategy
(`sampleStrategy`): the trailing volatility of the series is 5%, so the
strategy signals on the first candle and posts one grid order at 100; the
order fills on the second candle; the 10% move on the third candle fires
the take profit and the position is closed.
-/

/-- First candle: flat at 100. -/
def cA : Candle :=
  { timestamp := 0, openPrice := 100, high := 100, low := 100, close := 100,
    volume := 1000 }

/-- Second candle: flat at 100. -/
def cB : Candle :=
  { timestamp := 1, openPrice := 100, high := 100, low := 100, close := 100,
    volume := 1000 }

/-- Third candle: flat at 110. -/
def cC : Candle :=
  { timestamp := 2, openPrice := 110, high := 110, low := 110, close := 110,
    volume := 1000 }

/-- The three-candle market-data series. -/
def testCandles : List Candle := [cA, cB, cC]

/-- Backtest configuration: initial balance 10000, default fees (0.1%) and
slippage (0.05%). -/
def testConfig : BacktestConfig := { initial_balance := 10000 }

/-- The engine state after the first `k` candles of the run. -/
noncomputable def testMidState (k : ℕ) : EngineState :=
  (List.range k).foldl (processIdx testConfig testCandles "BTCUSDT")
    (initEngineState testConfig (some sampleStrategy) none)

/-- The final engine state of the run. -/
noncomputable def testFinalState : EngineState :=
  run_backtest testConfig testCandles "BTCUSDT" (some sampleStrategy) none

lemma testVolatility : calculate_volatility testCandles 20 = 5 := by
  unfold calculate_volatility testCandles cA cB cC
  norm_num [lastN, listReturns, ratVariance, ratMean]
  rw [show ((400 : ℝ)) = 20 ^ 2 by norm_num]
  rw [Real.sqrt_sq (by norm_num)]
  norm_num

lemma analyze_of_latched (strat : GridTradingStrategy) (md : List Candle)
    (h : strat.entry_signal_generated = true) : strat.analyze md = (strat, []) := by
  unfold GridTradingStrategy.analyze
  rw [if_neg]
  rintro ⟨-, h2⟩
  rw [h] at h2
  exact absurd h2 (by decide)

lemma analyze_of_fires (strat : GridTradingStrategy) (md : List Candle)
    (h1 : strat.state = .IDLE) (h2 : strat.entry_signal_generated = false)
    (h3 : (0.1 : ℝ) ≤ calculate_volatility md 20) :
    strat.analyze md =
      ({ strat with entry_signal_generated := true },
       [{ signal_type := if strat.trade_type = .long then .buy else .sell
          symbol := strat.symbol
          strength := min (calculate_volatility md 20 / 10) 1 }]) := by
  unfold GridTradingStrategy.analyze
  dsimp only
  rw [if_pos ⟨h1, h2⟩, if_pos h3]

lemma analyze_sample :
    sampleStrategy.analyze testCandles =
      ({ sampleStrategy with entry_signal_generated := true },
       [{ signal_type := .buy, symbol := "BTCUSDT",
          strength := min ((5 : ℝ) / 10) 1 }]) := by
  rw [analyze_of_fires sampleStrategy testCandles rfl rfl
    (by rw [testVolatility]; norm_num)]
  rw [testVolatility]
  rfl

/-- The single grid order posted on the first candle: full 10%-of-balance
size at the level-0 price 100. -/
def gridOrder0 : Order :=
  { order_id := "BTCUSDT_long_grid_0", symbol := "BTCUSDT",
    trade_type := .long, order_type := .limit, quantity := 10, price := 100 }

/-- The strategy after the first candle: entry signal latched, level price
recorded. -/
def strat1 : GridTradingStrategy :=
  { sampleStrategy with entry_signal_generated := true, grid_prices := [100] }

/-- The engine state after the first candle: untouched portfolio, one
pending grid order, one history reference. -/
def s1val : EngineState :=
  { portfolio := { timestamp := 0, cash_balance := 10000 }
    pending_orders := [gridOrder0]
    long_strat := some strat1
    short_strat := none
    history_len := 1
    all_trades := [] }

lemma testCandles_get0 : testCandles.get? 0 = some cA := rfl
lemma testCandles_get1 : testCandles.get? 1 = some cB := rfl
lemma testCandles_get2 : testCandles.get? 2 = some cC := rfl

lemma sample_position : sampleStrategy.position = none := rfl
lemma sample_state : sampleStrategy.state = .IDLE := rfl
lemma sample_flag : sampleStrategy.entry_signal_generated = false := rfl
lemma sample_scaled : sampleStrategy.current_scaled = none := rfl
lemma sample_params : sampleStrategy.params = testParams := rfl
lemma sample_trade_type : sampleStrategy.trade_type = .long := rfl
lemma sample_symbol : sampleStrategy.symbol = "BTCUSDT" := rfl
lemma sample_grid_prices : sampleStrategy.grid_prices = [] := rfl

lemma midState1 : testMidState 1 = s1val := by
  have hA := analyze_sample
  unfold testMidState
  rw [show List.range 1 = [0] from rfl, List.foldl_cons, List.foldl_nil]
  simp only [processIdx, testCandles_get0, initEngineState, fillsPartition,
    List.foldl, entryStep, exitStep, testConfig, mkOrderExecutor]
  simp only [sample_position, hA]
  simp only [GridTradingStrategy.generate_grid_orders, sample_scaled,
    sample_params, sample_trade_type, sample_symbol, sample_grid_prices,
    testParams, TradeType.value, List.isEmpty, List.map, cA]
  norm_num [s1val, gridOrder0, strat1]
  refine ⟨rfl, sample_symbol.symm, sample_trade_type.symm, sample_position.symm,
    sample_scaled.symm, ?_⟩
  norm_num [sampleStrategy, mkGridTradingStrategy, testParams]

/-- The position the engine creates when the grid order fills on the second
candle: full quantity, slipped entry price 100.05 — and `entry_orders = []`,
because the source constructs the `Position` without passing the filled
order. -/
def pos1 : Position :=
  { position_id := "BTCUSDT_long_1", symbol := "BTCUSDT", trade_type := .long,
    entry_price := 2001 / 20, quantity := 10, entry_time := some 1 }

/-- The strategy after the exit check of the second candle: price extremes
tracked at 100. -/
def strat2 : GridTradingStrategy :=
  { strat1 with current_max_price := 100, current_min_price := some 100 }

/-- The engine state after the second candle: order filled, commission and
cost debited, position open, two history references. -/
def s2val : EngineState :=
  { portfolio := { timestamp := 0, cash_balance := 17996999 / 2000,
                   position := some pos1, total_fees := 2001 / 2000 }
    pending_orders := []
    long_strat := some strat2
    short_strat := none
    history_len := 2
    all_trades := [] }

lemma strat1_position : strat1.position = none := rfl
lemma strat1_scaled : strat1.current_scaled = none := rfl
lemma strat1_params : strat1.params = testParams := rfl
lemma strat1_trade_type : strat1.trade_type = .long := rfl
lemma strat1_symbol : strat1.symbol = "BTCUSDT" := rfl
lemma strat1_max : strat1.current_max_price = 0 := rfl
lemma strat1_min : strat1.current_min_price = none := rfl

lemma midState2 : testMidState 2 = s2val := by
  have h1 := midState1
  unfold testMidState at h1 ⊢
  rw [show List.range 2 = [0, 1] from rfl, List.foldl_cons, List.foldl_cons,
    List.foldl_nil]
  rw [show List.range 1 = [0] from rfl, List.foldl_cons, List.foldl_nil] at h1
  rw [h1]
  have hL := analyze_of_latched strat1 testCandles rfl
  simp only [processIdx, testCandles_get1]
  norm_num [fillsPartition, gridOrder0, cB, OrderExecutor.execute_limit_order,
    mkOrderExecutor, testConfig, s1val, List.foldl, applyFilledOrder,
    OrderExecutor.calculate_commission, TradeType.value, entryStep,
    strat1_position, hL, List.isEmpty, exitStep,
    GridTradingStrategy.check_exit_conditions, Position.is_open,
    PortfolioState.total_equity, Position.calculate_unrealized_pnl,
    Position.calculate_unrealized_pnl_percent, strat1_scaled, strat1_params,
    testParams, strat1_trade_type, strat1_symbol, strat1_max, strat1_min,
    s2val, pos1, strat2]
  rfl

/-- The strategy after the third candle's exit check: peak price tracked at
110.  `entry_signal_generated` is still `true` — nothing in the engine's
exit path resets the strategy. -/
def strat3 : GridTradingStrategy :=
  { strat2 with current_max_price := 110 }

/-- The trade recorded when the take profit fires on the third candle. -/
def testTrade : Trade :=
  { trade_id := "BTCUSDT_L_2", symbol := "BTCUSDT",
    entry_price := 2001 / 20, exit_price := 110, quantity := 10,
    entry_time := some 1, exit_time := some 2, pnl := 199 / 2,
    pnl_after_commission := 492 / 5, pnl_percent := 19900 / 2001 }

/-- The final engine state: position closed, trade recorded, three history
references — and the strategy's entry flag still latched. -/
def s3val : EngineState :=
  { portfolio := { timestamp := 0, cash_balance := 20194799 / 2000,
                   position := none, closed_trades := [testTrade],
                   total_fees := 4201 / 2000 }
    pending_orders := []
    long_strat := some strat3
    short_strat := none
    history_len := 3
    all_trades := [testTrade] }

lemma strat2_position : strat2.position = none := rfl
lemma strat2_scaled : strat2.current_scaled = none := rfl
lemma strat2_params : strat2.params = testParams := rfl
lemma strat2_trade_type : strat2.trade_type = .long := rfl
lemma strat2_symbol : strat2.symbol = "BTCUSDT" := rfl
lemma strat2_max : strat2.current_max_price = 100 := rfl
lemma strat2_min : strat2.current_min_price = some 100 := rfl

lemma midState3 : testMidState 3 = s3val := by
  have h2 := midState2
  unfold testMidState at h2 ⊢
  rw [show List.range 3 = [0, 1, 2] from rfl, List.foldl_cons, List.foldl_cons,
    List.foldl_cons, List.foldl_nil]
  rw [show List.range 2 = [0, 1] from rfl, List.foldl_cons, List.foldl_cons,
    List.foldl_nil] at h2
  rw [h2]
  have hL := analyze_of_latched strat2 testCandles rfl
  simp only [processIdx, testCandles_get2]
  norm_num [fillsPartition, cC, mkOrderExecutor, testConfig, s2val, List.foldl,
    OrderExecutor.calculate_commission, TradeType.value, entryStep,
    strat2_position, hL, List.isEmpty, exitStep,
    GridTradingStrategy.check_exit_conditions, Position.is_open,
    PortfolioState.total_equity, Position.calculate_unrealized_pnl,
    Position.calculate_unrealized_pnl_percent, strat2_scaled, strat2_params,
    testParams, strat2_trade_type, strat2_symbol, strat2_max, strat2_min,
    pos1, s3val, strat3, testTrade]
  rfl

lemma testFinalState_eq : testFinalState = s3val := by
  have h3 := midState3
  unfold testFinalState run_backtest
  unfold testMidState at h3
  rw [show testCandles.length = 3 from rfl]
  exact h3

/-- C1 (code_bug evaluation): on the three-candle run, the grid order fills
on the second candle and the engine opens a position of quantity 10 — yet
its `entry_orders` list is empty: the engine constructs the `Position`
without seeding `entry_orders` and never appends the filled order, so the
sum of filled quantities over `entry_orders` is 0 ≠ 10 and the volume
weighted average of an empty list cannot equal the entry price. -/
theorem engine_position_has_empty_entry_orders :
    (testMidState 2).portfolio.position = some pos1 ∧
    pos1.quantity = 10 ∧
    pos1.entry_orders = [] ∧
    ((pos1.entry_orders.map fun o => o.filled_quantity).sum = 0) := by
  rw [midState2]
  exact ⟨rfl, rfl, rfl, rfl⟩

/-- C2 (code_bug evaluation): on the three-candle run the engine closes the
position on the third candle (one recorded trade, no open position), yet the
strategy's `entry_signal_generated` flag is still `true` and a further
`analyze` call returns no signals: the engine's exit path never calls
`reset()` and never clears the latched flag, so all future entries are
blocked. -/
theorem strategy_flag_still_latched_after_close :
    testFinalState.all_trades = [testTrade] ∧
    testFinalState.portfolio.position = none ∧
    testFinalState.long_strat = some strat3 ∧
    strat3.entry_signal_generated = true ∧
    strat3.state = .IDLE ∧
    strat3.analyze testCandles = (strat3, []) := by
  rw [testFinalState_eq]
  exact ⟨rfl, rfl, rfl, rfl, rfl, analyze_of_latched strat3 testCandles rfl⟩

/-- C4 (code_bug evaluation): on the three-candle run the cash balance
changes after the first candle (10000 before the fill, 20194799/2000 at the
end), so the claimed per-candle snapshots should differ — but the observed
history entries after the first and after the last candle are identical,
because `portfolio_history.append(portfolio)` stores a reference to the
single portfolio object that the loop keeps mutating in place. -/
theorem portfolio_history_entries_not_immutable_snapshots :
    (observed_portfolio_history testFinalState).get? 0 =
      (observed_portfolio_history testFinalState).get? 2 ∧
    (testMidState 1).portfolio.cash_balance = 10000 ∧
    testFinalState.portfolio.cash_balance = 20194799 / 2000 ∧
    (10000 : ℚ) ≠ 20194799 / 2000 := by
  rw [testFinalState_eq, midState1]
  refine ⟨rfl, rfl, rfl, by norm_num⟩
